import Mathlib

/-!
Verification development for the terraform-provider-nrs repository.

The embedding covers the synthetics API client (`pkg/synthetics`, file
`src/unnamed/part_000`) and the Terraform provider layer
(`src/pkg/provider/provider.go`).  Pure Go functions become Lean functions;
the injectable HTTP transport (`HTTPClient.Do`) becomes a function from
requests to responses carried inside the `Client` record; fallible Go code
returns `Except`.  Machine integers (`uint`, `uint32`) are `Nat` with
explicit reduction modulo 2 ^ 32 / 2 ^ 64 where overflow matters.  Go byte
strings that can hold raw binary data (script bodies and SHA-256 digests)
are `List Nat` byte lists; other strings are Lean `String`.
-/

namespace Sha256

/-! SHA-256 (FIPS 180-4), the algorithm behind Go `crypto/sha256` as used by
`sha256StateFunc` in provider.go.  Words are `Nat` reduced modulo 2 ^ 32. -/

/-- Truncate a natural number to a 32-bit word. -/
def w32 (n : Nat) : Nat := n % 4294967296

/-- Right rotation of a 32-bit word by `n` bits. -/
def rotr (n x : Nat) : Nat := w32 ((x >>> n) ||| (x <<< (32 - n)))

/-- Logical right shift. -/
def shr (n x : Nat) : Nat := x >>> n

/-- The choice function: for each bit, pick from `y` or `z` according to `x`. -/
def ch (x y z : Nat) : Nat := (x &&& y) ^^^ ((x ^^^ 4294967295) &&& z)

/-- The majority function on 32-bit words. -/
def maj (x y z : Nat) : Nat := (x &&& y) ^^^ (x &&& z) ^^^ (y &&& z)

/-- Big sigma 0. -/
def bsig0 (x : Nat) : Nat := rotr 2 x ^^^ rotr 13 x ^^^ rotr 22 x

/-- Big sigma 1. -/
def bsig1 (x : Nat) : Nat := rotr 6 x ^^^ rotr 11 x ^^^ rotr 25 x

/-- Small sigma 0. -/
def ssig0 (x : Nat) : Nat := rotr 7 x ^^^ rotr 18 x ^^^ shr 3 x

/-- Small sigma 1. -/
def ssig1 (x : Nat) : Nat := rotr 17 x ^^^ rotr 19 x ^^^ shr 10 x

/-- The 64 SHA-256 round constants of FIPS 180-4 (the first 32 bits of the
fractional parts of the cube roots of the first 64 primes), written as
decimal word values. -/
def roundConstants : List Nat :=
  [1116352408, 1899447441, 3049323471, 3921009573,
   961987163, 1508970993, 2453635748, 2870763221,
   3624381080, 310598401, 607225278, 1426881987,
   1925078388, 2162078206, 2614888103, 3248222580,
   3835390401, 4022224774, 264347078, 604807628,
   770255983, 1249150122, 1555081692, 1996064986,
   2554220882, 2821834349, 2952996808, 3210313671,
   3336571891, 3584528711, 113926993, 338241895,
   666307205, 773529912, 1294757372, 1396182291,
   1695183700, 1986661051, 2177026350, 2456956037,
   2730485921, 2820302411, 3259730800, 3345764771,
   3516065817, 3600352804, 4094571909, 275423344,
   430227734, 506948616, 659060556, 883997877,
   958139571, 1322822218, 1537002063, 1747873779,
   1955562222, 2024104815, 2227730452, 2361852424,
   2428436474, 2756734187, 3204031479, 3329325298]

/-- Big-endian encoding of a 64-bit length, as eight bytes. -/
def be64 (n : Nat) : List Nat :=
  [n >>> 56 &&& 255, n >>> 48 &&& 255, n >>> 40 &&& 255, n >>> 32 &&& 255,
   n >>> 24 &&& 255, n >>> 16 &&& 255, n >>> 8 &&& 255, n &&& 255]

/-- Merkle-Damgard padding: append 0x80, zero bytes up to 56 mod 64, then the
bit length in big-endian.  The result length is a multiple of 64. -/
def pad (msg : List Nat) : List Nat :=
  msg ++ [128] ++ List.replicate ((119 - msg.length % 64) % 64) 0 ++ be64 (8 * msg.length)

/-- The `j`-th big-endian 32-bit word of a 64-byte block. -/
def word (block : List Nat) (j : Nat) : Nat :=
  (block.getD (4 * j) 0) <<< 24 ||| (block.getD (4 * j + 1) 0) <<< 16 |||
    (block.getD (4 * j + 2) 0) <<< 8 ||| block.getD (4 * j + 3) 0

/-- The 64-entry message schedule of one block. -/
def schedule (block : List Nat) : Array Nat :=
  let w0 : Array Nat := (List.range 16).foldl (fun a j => a.push (word block j)) #[]
  (List.range 48).foldl
    (fun a _ =>
      let i := a.size
      a.push (w32 (ssig1 (a.getD (i - 2) 0) + a.getD (i - 7) 0 +
        ssig0 (a.getD (i - 15) 0) + a.getD (i - 16) 0)))
    w0

/-- The eight 32-bit working variables of the compression function. -/
structure Hash8 where
  a : Nat
  b : Nat
  c : Nat
  d : Nat
  e : Nat
  f : Nat
  g : Nat
  h : Nat
deriving DecidableEq

/-- One round of the SHA-256 compression function. -/
def roundStep (st : Hash8) (kw : Nat × Nat) : Hash8 :=
  let t1 := w32 (st.h + bsig1 st.e + ch st.e st.f st.g + kw.1 + kw.2)
  let t2 := w32 (bsig0 st.a + maj st.a st.b st.c)
  ⟨w32 (t1 + t2), st.a, st.b, st.c, w32 (st.d + t1), st.e, st.f, st.g⟩

/-- Compress one 64-byte block into the running hash state. -/
def compress (st : Hash8) (block : List Nat) : Hash8 :=
  let ws := schedule block
  let r := (roundConstants.zip ws.toList).foldl roundStep st
  ⟨w32 (st.a + r.a), w32 (st.b + r.b), w32 (st.c + r.c), w32 (st.d + r.d),
   w32 (st.e + r.e), w32 (st.f + r.f), w32 (st.g + r.g), w32 (st.h + r.h)⟩

/-- Split a padded message (length a multiple of 64) into 64-byte blocks. -/
def blocksOf (msg : List Nat) : List (List Nat) :=
  (List.range (msg.length / 64)).map (fun i => (msg.drop (64 * i)).take 64)

/-- Big-endian encoding of one 32-bit word as four bytes. -/
def be4 (n : Nat) : List Nat :=
  [n >>> 24 &&& 255, n >>> 16 &&& 255, n >>> 8 &&& 255, n &&& 255]

/-- Serialize the final hash state as the 32-byte digest. -/
def hashBytes (st : Hash8) : List Nat :=
  be4 st.a ++ be4 st.b ++ be4 st.c ++ be4 st.d ++ be4 st.e ++ be4 st.f ++
    be4 st.g ++ be4 st.h

/-- The SHA-256 digest (32 bytes) of a byte string. -/
def sha256 (msg : List Nat) : List Nat :=
  hashBytes ((blocksOf (pad msg)).foldl compress
    ⟨1779033703, 3144134277, 1013904242, 2773480762,
     1359893119, 2600822924, 528734635, 1541459225⟩)

end Sha256

/-- The UTF-8 bytes of an ASCII string, as the byte values of its characters. -/
def strBytes (s : String) : List Nat := s.toList.map (fun c => c.toNat)

namespace synthetics

/-! The synthetics API client, translated from `src/unnamed/part_000`
(package `synthetics`).  The injectable `HTTPClient` interface (one request
in, one response out) becomes a function field of `Client`. -/

/-- A Go error value.  Go compares errors on the `==` operator by interface
identity, so the package-level sentinel values are their own constructors,
distinct from every error freshly allocated by `errors.New` / `errors.Errorf`
(constructor `fresh`) or `errors.Wrap` (constructor `wrapped`).  The two
sentinels are declared in the portion of the synthetics package that is not
among the sources (only their uses in provider.go appear); a fresh
allocation is never identical to either of them, whatever their message
text, which the constructor separation models.  The code never compares two
fresh errors with each other, so identifying fresh errors that carry the
same message is harmless. -/
inductive GoError where
  | ErrMonitorNotFound : GoError
  | ErrMonitorScriptNotFound : GoError
  | fresh (msg : String) : GoError
  | wrapped (msg : String) (cause : GoError) : GoError
deriving DecidableEq, BEq

/-- An IEEE-754 float64 value, carried opaquely by its 64-bit pattern.  The
code moves `slaThreshold` values around but never computes with them. -/
structure Float64 where
  bits : Nat
deriving DecidableEq

/-- A script location (name, hmac), from `synthetics.ScriptLocation` (the
declaration lives in the portion of the package missing from the sources;
the fields are fixed by their construction sites in provider.go). -/
structure ScriptLocation where
  Name : String
  HMAC : String
deriving DecidableEq

/-- `synthetics.Monitor`.  The first ten fields are the declaration in
`src/unnamed/part_000`; the four optional pointer fields are required by
their uses in provider.go (`monitor.ValidationString` etc.), whose
declarations fall in the part of the package missing from the sources: per
the spec they are tri-state optionals, `nil` meaning absent, so they are
`Option` here.  The field `Type_` renders the Go field `Type` (Lean reserves
the name). -/
structure Monitor where
  ID : String
  Name : String
  Type_ : String
  Frequency : Nat
  URI : String
  Locations : List String
  Status : String
  SLAThreshold : Float64
  UserID : Nat := 0
  APIVersion : String := ""
  ValidationString : Option String := none
  VerifySSL : Option Bool := none
  BypassHEADRequest : Option Bool := none
  TreatRedirectAsFailure : Option Bool := none
deriving DecidableEq

/-- `synthetics.CreateMonitorArgs`.  As with `Monitor`, the required fields
and `Options` are the `part_000` declaration, and the four optional pointer
fields are fixed by their assignment sites in provider.go (tri-state
optionals per the spec).  The `Options` map is modelled as an association
list; nothing in the claims inspects it. -/
structure CreateMonitorArgs where
  Name : String
  Type_ : String
  Frequency : Nat
  URI : String
  Locations : List String
  Status : String
  SLAThreshold : Float64
  Options : List (String × String) := []
  ValidationString : Option String := none
  VerifySSL : Option Bool := none
  BypassHEADRequest : Option Bool := none
  TreatRedirectAsFailure : Option Bool := none
deriving DecidableEq

/-- Modelled from the spec: `synthetics.UpdateMonitorArgs` is declared in the
portion of the synthetics package missing from the sources; only its
construction site in provider.go appears.  Per the spec, update payloads use
a distinct shape from create payloads with `type` present only in the
latter, required fields unconditional, and tri-state optionals. -/
structure UpdateMonitorArgs where
  Name : String
  Frequency : Nat
  URI : String
  Locations : List String
  Status : String
  SLAThreshold : Float64
  ValidationString : Option String := none
  VerifySSL : Option Bool := none
  BypassHEADRequest : Option Bool := none
  TreatRedirectAsFailure : Option Bool := none
deriving DecidableEq

/-- Modelled from the spec: the JSON keys of the body `UpdateMonitor`
(missing from the sources) sends for given args — the six required fields
are always serialized, each optional field only when present (Go pointer
fields with omitempty semantics, per the tri-state contract of the spec). -/
def updateMonitorPayloadKeys (args : UpdateMonitorArgs) : List String :=
  ["name", "frequency", "uri", "locations", "status", "slaThreshold"] ++
    (if args.ValidationString.isSome then ["validationString"] else []) ++
    (if args.VerifySSL.isSome then ["verifySSL"] else []) ++
    (if args.BypassHEADRequest.isSome then ["bypassHEADRequest"] else []) ++
    (if args.TreatRedirectAsFailure.isSome then ["treatRedirectAsFailure"] else [])

/-- An outgoing HTTP request.  `form` models the `url.Values` map
`request.Form`, with `none` for the nil map a request fresh from
`http.NewRequest` carries.  The JSON body of `CreateMonitor` is carried
structurally in `bodyCreateArgs` (no claim inspects serialized bytes). -/
structure HTTPRequest where
  method : String
  url : String
  headers : List (String × String)
  form : Option (List (String × String)) := none
  bodyCreateArgs : Option CreateMonitorArgs := none
deriving DecidableEq

/-- An HTTP response, as far as the client inspects one: the status code, the
`Location` header (`Header.Get` yields `""` when the header is absent), the
decoded JSON monitor body (`none` when the body does not decode as a
monitor), the script body for the script endpoint, and the raw body text
used in error messages. -/
structure HTTPResponse where
  statusCode : Nat
  locationHeader : String := ""
  monitorBody : Option Monitor := none
  scriptBody : Option (List Nat) := none
  rawBody : String := ""
deriving DecidableEq

/-- `synthetics.Client`: the API key plus the injectable transport
(`HTTPClient.Do` as a function from request to response). -/
structure Client where
  APIKey : String
  HTTPClient : HTTPRequest → HTTPResponse

/-- `Client.getRequest`: build a request and attach the `X-Api-Key` header.
`http.NewRequest` succeeds for every URL the client constructs here, so the
error path of the Go function is not reachable in this model. -/
def getRequest (c : Client) (method url : String) : HTTPRequest :=
  { method := method, url := url, headers := [("X-Api-Key", c.APIKey)] }

/-- The base monitors URL, `https://synthetics.newrelic.com/synthetics/api/v3/monitors`. -/
def monitorsEndpoint : String :=
  "https://synthetics.newrelic.com/synthetics/api/v3/monitors"

/-- The literal part of the `monitorURL` regular expression before the
capture group, i.e. the monitors URL followed by a slash. -/
def monitorURLBase : String :=
  "https://synthetics.newrelic.com/synthetics/api/v3/monitors/"

/-- The character list of `monitorURLBase`, the pattern characters of the
regular expression between the anchors. -/
def monitorURLPattern : List Char := monitorURLBase.toList

/-- RE2 single-character matching for the pattern characters of `monitorURL`:
the pattern's unescaped dots match any character except a newline; every
other pattern character matches only itself. -/
def reCharMatch (p c : Char) : Bool := if p = '.' then c != '\n' else c == p

/-- The `monitorURL` regular expression
`^https://synthetics.newrelic.com/synthetics/api/v3/monitors/(.+)$` applied
via `FindAllStringSubmatch`: because of the anchors a match must cover the
whole string, the fixed-width pattern prefix consumes exactly its own length,
and the greedy `(.+)` capture is the nonempty newline-free remainder.
Returns the capture group when the expression matches. -/
def monitorURLMatch (s : String) : Option String :=
  let cs := s.toList
  let n := monitorURLPattern.length
  let pre := cs.take n
  let rest := cs.drop n
  if pre.length == n &&
      (monitorURLPattern.zip pre).all (fun pc => reCharMatch pc.1 pc.2) &&
      !(rest == []) && rest.all (fun c => c != '\n')
  then some (String.mk rest)
  else none

/-- `Client.GetMonitor`, translated from `src/unnamed/part_000` lines
187-226.  Note the 404 branch returns a freshly allocated error, not the
package sentinel `ErrMonitorNotFound`. -/
def GetMonitor (c : Client) (id : String) : Except GoError Monitor :=
  if id == "" then
    .error (.fresh ("error: invalid id provided: " ++ id))
  else
    let request := getRequest c "GET" (monitorsEndpoint ++ "/" ++ id)
    let response := c.HTTPClient request
    if response.statusCode == 404 then
      .error (.fresh "error: could not find monitor")
    else if !(response.statusCode == 200) then
      .error (.fresh ("error: invalid response from GetMonitor with code " ++
        toString response.statusCode ++ ". Message: " ++ response.rawBody))
    else
      match response.monitorBody with
      | none => .error (.wrapped "error: could not parse GetMonitor JSON response" (.fresh "json"))
      | some monitor => .ok monitor

/-- The POST request `CreateMonitor` sends: the monitors endpoint with the
`Content-Type` header set and the args as JSON body (JSON encoding of this
shape cannot fail, so the encode error path is not reachable). -/
def CreateMonitorRequest (c : Client) (m : CreateMonitorArgs) : HTTPRequest :=
  let request := getRequest c "POST" monitorsEndpoint
  { request with
      headers := request.headers ++ [("Content-Type", "application/json")],
      bodyCreateArgs := some m }

/-- `Client.CreateMonitor`, translated from `src/unnamed/part_000` lines
241-287: on a 201 response the monitor id is the capture of `monitorURL`
applied to the `Location` header, and the returned monitor is the result of
the follow-up `GetMonitor` on that id (the create response body is never
decoded). -/
def CreateMonitor (c : Client) (m : CreateMonitorArgs) : Except GoError Monitor :=
  let response := c.HTTPClient (CreateMonitorRequest c m)
  if !(response.statusCode == 201) then
    .error (.fresh ("error: invalid response from CreateMonitor with code " ++
      toString response.statusCode ++ ". Message: " ++ response.rawBody))
  else
    match monitorURLMatch response.locationHeader with
    | none => .error (.fresh "error: could not find an ID for monitor in location header")
    | some id =>
      match GetMonitor c id with
      | .error e => .error (.wrapped ("error: could not get metadata for monitor: " ++ id) e)
      | .ok monitor => .ok monitor

/-- `synthetics.GetAllMonitorsArgs`. -/
structure GetAllMonitorsArgs where
  Offset : Nat
  Limit : Nat
deriving DecidableEq

/-- `url.Values.Add` as invoked on `request.Form`.  A `url.Values` is a Go
map; `Add` assigns into it, and an assignment into a nil map is a Go runtime
panic, modelled as the error case. -/
def valuesAdd (form : Option (List (String × String))) (key value : String) :
    Except String (Option (List (String × String))) :=
  match form with
  | none => .error "panic: assignment to entry in nil map"
  | some entries => .ok (some (entries ++ [(key, value)]))

/-- The request-construction phase of `Client.GetAllMonitors`
(`src/unnamed/part_000` lines 121-141): build the GET request, then add the
`offset` and `limit` entries to `request.Form` when the respective argument
is positive.  A request fresh from `http.NewRequest` has `Form == nil`, so
each `Form.Add` hits a nil map. -/
def GetAllMonitorsRequest (c : Client) (requestArgs : GetAllMonitorsArgs) :
    Except String HTTPRequest :=
  let request := getRequest c "GET" monitorsEndpoint
  match (if requestArgs.Offset > 0 then
      valuesAdd request.form "offset" (toString requestArgs.Offset)
    else .ok request.form) with
  | .error p => .error p
  | .ok form1 =>
    match (if requestArgs.Limit > 0 then
        valuesAdd form1 "limit" (toString requestArgs.Limit)
      else .ok form1) with
    | .error p => .error p
    | .ok form2 => .ok { request with form := form2 }

/-- Modelled from the spec: `Client.GetMonitorScript` is declared in the
portion of the synthetics package missing from the sources (only its
call sites in provider.go appear).  Per the spec, the script endpoint's 404
is the distinguished ScriptNotFound outcome — the package sentinel
`ErrMonitorScriptNotFound` that provider.go switches on — any other
non-success status is a remote error, and on success the fetched script
content is returned (provider.go fingerprints it with `sha256StateFunc`). -/
def GetMonitorScript (c : Client) (id : String) : Except GoError (List Nat) :=
  let request := getRequest c "GET" (monitorsEndpoint ++ "/" ++ id ++ "/script")
  let response := c.HTTPClient request
  if response.statusCode == 404 then
    .error .ErrMonitorScriptNotFound
  else if !(response.statusCode == 200) then
    .error (.fresh ("error: invalid response from GetMonitorScript with code " ++
      toString response.statusCode))
  else
    match response.scriptBody with
    | none => .error (.fresh "error: could not parse GetMonitorScript response")
    | some s => .ok s

end synthetics

namespace provider

open synthetics

/-! The Terraform provider layer, translated from
`src/pkg/provider/provider.go`.  A `schema.ResourceData` is modelled as a
record of the declared schema fields: the optional fields (everything the
schema marks `Optional`, plus the two script fields) are `Option`, with
`none` for "not set in the state", together with the per-field change flags
that back `HasChange` — the spec states change detection is supplied
externally and not recomputed here.  The Go `type` key is the field
`type_` (Lean reserves the name). -/

structure ResourceData where
  id : String := ""
  name : String := ""
  type_ : String := ""
  frequency : Int := 0
  uri : String := ""
  locations : List String := []
  status : String := ""
  sla_threshold : Float64 := ⟨0⟩
  validation_string : Option String := none
  verify_ssl : Option Bool := none
  bypass_head_request : Option Bool := none
  treat_redirect_as_failure : Option Bool := none
  script : Option (List Nat) := none
  script_locations : Option (List ScriptLocation) := none
  changed_validation_string : Bool := false
  changed_verify_ssl : Bool := false
  changed_bypass_head_request : Bool := false
  changed_treat_redirect_as_failure : Bool := false
  changed_script : Bool := false
deriving DecidableEq

/-- `ResourceData.Get` for a string key: the stored value, or the string
zero value `""` when the key is unset (terraform helper/schema semantics). -/
def getStringField (v : Option String) : String := v.getD ""

/-- `ResourceData.Get` for a bool key: the stored value, or `false` when the
key is unset. -/
def getBoolField (v : Option Bool) : Bool := v.getD false

/-- `ResourceData.GetOk` for a string key (terraform helper/schema): the
value together with ok, where ok holds exactly when the key has been set to
a non-zero value — a key set to `""` reports ok = false, indistinguishable
from an unset key. -/
def getOkStringField (v : Option String) : String × Bool :=
  (v.getD "", !(v.getD "" == ""))

/-- `ResourceData.GetOk` for a bool key: ok holds exactly when the key has
been set to a non-zero value, so a key set to `false` reports ok = false,
indistinguishable from an unset key. -/
def getOkBoolField (v : Option Bool) : Bool × Bool :=
  (v.getD false, v.getD false)

/-- The Go `uint(i)` conversion of a (64-bit) `int` value. -/
def uintOfInt (i : Int) : Nat := (i % (18446744073709551616 : Int)).toNat

/-- `sha256StateFunc` from provider.go lines 149-154: the SHA-256 digest of
the script string, returned as the raw 32-byte string
(`string(hash.Sum(nil))`).  Go strings are byte strings, modelled as byte
lists here. -/
def sha256StateFunc (s : List Nat) : List Nat := Sha256.sha256 s

/-- The `CreateMonitorArgs` value `NRSMonitorCreate` builds (provider.go
lines 161-182): required fields from `Get` (with `util.StrSlice` the
identity on the location strings), then each optional field included only
when its `GetOk` reports ok, via `util.StrPtr` / `util.BoolPtr` (Go address
of, i.e. `some`). -/
def buildCreateMonitorArgs (resourceData : ResourceData) : CreateMonitorArgs :=
  let args : CreateMonitorArgs :=
    { Name := resourceData.name
      Type_ := resourceData.type_
      Frequency := uintOfInt resourceData.frequency
      URI := resourceData.uri
      Locations := resourceData.locations
      Status := resourceData.status
      SLAThreshold := resourceData.sla_threshold }
  let args := match getOkStringField resourceData.validation_string with
    | (data, true) => { args with ValidationString := some data }
    | (_, false) => args
  let args := match getOkBoolField resourceData.verify_ssl with
    | (data, true) => { args with VerifySSL := some data }
    | (_, false) => args
  let args := match getOkBoolField resourceData.bypass_head_request with
    | (data, true) => { args with BypassHEADRequest := some data }
    | (_, false) => args
  let args := match getOkBoolField resourceData.treat_redirect_as_failure with
    | (data, true) => { args with TreatRedirectAsFailure := some data }
    | (_, false) => args
  args

/-- The `UpdateMonitorArgs` value `NRSMonitorUpdate` builds (provider.go
lines 224-247): the six required fields unconditionally, then each optional
field gated on `HasChange`; for `validation_string` the changed value is
additionally dropped when it is the empty string. -/
def buildUpdateMonitorArgs (resourceData : ResourceData) : UpdateMonitorArgs :=
  let args : UpdateMonitorArgs :=
    { Name := resourceData.name
      Frequency := uintOfInt resourceData.frequency
      URI := resourceData.uri
      Locations := resourceData.locations
      Status := resourceData.status
      SLAThreshold := resourceData.sla_threshold }
  let args := if resourceData.changed_validation_string then
      let validationString := getStringField resourceData.validation_string
      if !(validationString == "") then
        { args with ValidationString := some validationString }
      else args
    else args
  let args := if resourceData.changed_verify_ssl then
      { args with VerifySSL := some (getBoolField resourceData.verify_ssl) }
    else args
  let args := if resourceData.changed_bypass_head_request then
      { args with BypassHEADRequest := some (getBoolField resourceData.bypass_head_request) }
    else args
  let args := if resourceData.changed_treat_redirect_as_failure then
      { args with TreatRedirectAsFailure := some (getBoolField resourceData.treat_redirect_as_failure) }
    else args
  args

/-- `NRSMonitorRead` (provider.go lines 281-369): fetch the monitor, fail on
error; fetch the script and switch on the error value — the sentinel
`ErrMonitorScriptNotFound` clears both the `script` and `script_locations`
state, a nil error stores the digest `sha256StateFunc(script)`, any other
error fails the read; then store every monitor field, mapping each optional
pointer field to set/cleared state.  `ResourceData.Set` succeeds for these
fixed schema keys, so its error returns are not reachable; setting a field
to Go `nil` clears it to absent. -/
def NRSMonitorRead (resourceData : ResourceData) (client : Client) :
    Except GoError ResourceData :=
  match GetMonitor client resourceData.id with
  | .error e => .error (.wrapped "error: could not get monitor" e)
  | .ok monitor =>
    let afterScript : Except GoError ResourceData :=
      match GetMonitorScript client resourceData.id with
      | .error .ErrMonitorScriptNotFound =>
        .ok { resourceData with script := none, script_locations := none }
      | .ok script =>
        .ok { resourceData with script := some (sha256StateFunc script) }
      | .error e => .error (.wrapped "error: could not get monitor script" e)
    match afterScript with
    | .error e => .error e
    | .ok rd =>
      .ok { rd with
        name := monitor.Name
        type_ := monitor.Type_
        frequency := (monitor.Frequency : Int)
        uri := monitor.URI
        locations := monitor.Locations
        status := monitor.Status
        sla_threshold := monitor.SLAThreshold
        validation_string := monitor.ValidationString
        verify_ssl := monitor.VerifySSL
        bypass_head_request := monitor.BypassHEADRequest
        treat_redirect_as_failure := monitor.TreatRedirectAsFailure }

/-- `NRSMonitorExists` (provider.go lines 384-395): call `GetMonitor`; an
error identical (Go `==`) to the sentinel `ErrMonitorNotFound` yields
`(false, nil)`, any other error is wrapped and propagated with a false
result, and success yields `(true, nil)`. -/
def NRSMonitorExists (resourceData : ResourceData) (client : Client) :
    Bool × Option GoError :=
  match GetMonitor client resourceData.id with
  | .error err =>
    if err == GoError.ErrMonitorNotFound then (false, none)
    else (false, some (.wrapped "error: could not get monitor" err))
  | .ok _ => (true, none)

end provider

open synthetics provider

/-! Definitions written from the spec's words, for comparison with the code,
plus the concrete clients and resource states the claim theorems and their
witnesses evaluate the operations on. -/

/-- Definition following the spec's words, for comparison with the code's
regular expression: a Location header "of the shape
https://synthetics.newrelic.com/synthetics/api/v3/monitors/(id)" is
literally that URL base followed by a nonempty id. -/
def locationOfSpecShape (loc : String) : Bool :=
  (loc.toList.take monitorURLPattern.length == monitorURLPattern) &&
    decide (monitorURLPattern.length < loc.toList.length)

/-- Definition following the spec's words: the final path segment of a URL,
i.e. the suffix after the last slash. -/
def lastPathSegment (s : String) : String :=
  String.mk ((s.toList.reverse.takeWhile (fun c => c != '/')).reverse)

/-- A transport whose every response is a 404, so `GetMonitor` takes its
not-found branch. -/
def clientNotFound : Client :=
  { APIKey := "key", HTTPClient := fun _ => { statusCode := 404 } }

/-- A resource state holding only the monitor id, as `NRSMonitorExists`
consumes it. -/
def rdExists : ResourceData := { id := "abc123" }

/-- A transport used only for request construction. -/
def clientList : Client :=
  { APIKey := "key", HTTPClient := fun _ => { statusCode := 200 } }

/-- A remote monitor used by the create-flow scenarios. -/
def monitorHome : Monitor :=
  { ID := "abc123", Name := "home", Type_ := "SIMPLE", Frequency := 5,
    URI := "https://example.com", Locations := ["US_EAST_1"],
    Status := "ENABLED", SLAThreshold := ⟨7⟩ }

/-- Create args for the scenario monitor. -/
def createArgsHome : CreateMonitorArgs :=
  { Name := "home", Type_ := "SIMPLE", Frequency := 5,
    URI := "https://example.com", Locations := ["US_EAST_1"],
    Status := "ENABLED", SLAThreshold := ⟨7⟩ }

/-- A Location header that is NOT of the literal URL shape (the host reads
`syntheticsXnewrelic.com`), but which the unescaped dot of the code's
regular expression accepts. -/
def oddHostLocation : String :=
  "https://syntheticsXnewrelic.com/synthetics/api/v3/monitors/abc123"

/-- A transport answering the create POST with 201 and the odd-host Location
header, and every other request (the follow-up GetMonitor) with the scenario
monitor. -/
def clientOddHost : Client :=
  { APIKey := "key",
    HTTPClient := fun req =>
      if req.method == "POST" then
        { statusCode := 201, locationHeader := oddHostLocation }
      else { statusCode := 200, monitorBody := some monitorHome } }

/-- A transport answering the create POST with 201 but no Location header. -/
def clientNoLocation : Client :=
  { APIKey := "key", HTTPClient := fun _ => { statusCode := 201 } }

/-- A transport answering the create POST with 201 and a well-formed
Location header, and the follow-up GetMonitor with the scenario monitor. -/
def clientGoodLocation : Client :=
  { APIKey := "key",
    HTTPClient := fun req =>
      if req.method == "POST" then
        { statusCode := 201, locationHeader := monitorURLBase ++ "abc123" }
      else { statusCode := 200, monitorBody := some monitorHome } }

/-- An update-flow resource state whose `validation_string` was changed and
is now explicitly the empty string. -/
def rdUpdateEmptyValidation : ResourceData :=
  { validation_string := some "", changed_validation_string := true }

/-- A create-flow resource state whose optional fields are present with
their zero values: `verify_ssl` explicitly false and `validation_string`
explicitly empty. -/
def rdCreatePresentFalse : ResourceData :=
  { verify_ssl := some false, validation_string := some "" }

/-- A remote monitor used by the read scenarios. -/
def monitorRead : Monitor :=
  { ID := "mid", Name := "m", Type_ := "SIMPLE", Frequency := 5, URI := "u",
    Locations := ["US_EAST_1"], Status := "ENABLED", SLAThreshold := ⟨7⟩ }

/-- A transport answering the script endpoint of monitor `mid` with 404 and
everything else with the read-scenario monitor. -/
def scriptNotFoundClient : Client :=
  { APIKey := "key",
    HTTPClient := fun req =>
      if req.url == monitorsEndpoint ++ "/mid/script" then { statusCode := 404 }
      else { statusCode := 200, monitorBody := some monitorRead } }

/-- A read-scenario resource state with a stored script digest and stored
script locations. -/
def rdReadWithScript : ResourceData :=
  { id := "mid", script := some [1, 2, 3],
    script_locations := some [⟨"private", "hmac"⟩] }

/-- The spec scenario script body. -/
def scriptBodyConsole : List Nat := strBytes "console.log(1)"

/-- A transport answering the script endpoint of monitor `mid` with the
scenario script and everything else with the read-scenario monitor. -/
def scriptOkClient : Client :=
  { APIKey := "key",
    HTTPClient := fun req =>
      if req.url == monitorsEndpoint ++ "/mid/script" then
        { statusCode := 200, scriptBody := some scriptBodyConsole }
      else { statusCode := 200, monitorBody := some monitorRead } }

/-- A read-scenario resource state (no stored script yet) for the
fingerprint claim. -/
def rdReadPlain : ResourceData := { id := "mid" }

/-- A transport like `scriptOkClient`, for the frame claim on
`script_locations`. -/
def scriptOkClient2 : Client :=
  { APIKey := "key",
    HTTPClient := fun req =>
      if req.url == monitorsEndpoint ++ "/mid/script" then
        { statusCode := 200, scriptBody := some [7, 7] }
      else { statusCode := 200, monitorBody := some monitorRead } }

/-- A read-scenario resource state with stored script locations, for the
frame claim. -/
def rdReadLocations : ResourceData :=
  { id := "mid", script_locations := some [⟨"p1", "h1"⟩, ⟨"p2", "h2"⟩] }


/-! Helper lemmas. -/

/-- A SHA-256 digest always has 32 bytes. -/
theorem sha256_digest_length (msg : List Nat) : (Sha256.sha256 msg).length = 32 := by
  simp [Sha256.sha256, Sha256.hashBytes, Sha256.be4]

/-- Sanity check of the digest embedding against the FIPS 180-4 test vector
for "abc", whose digest in hex reads
ba7816bf8f01cfea414140de5dae2223b00361a396177a9cb410ff61f20015ad. -/
theorem sha256_test_vector_abc :
    Sha256.sha256 (strBytes "abc") =
      [186, 120, 22, 191, 143, 1, 207, 234,
       65, 65, 64, 222, 93, 174, 34, 35,
       176, 3, 97, 163, 150, 23, 122, 156,
       180, 16, 255, 97, 242, 0, 21, 173] := by decide

/-- String concatenation concatenates the character data. -/
theorem string_data_append (s t : String) : (s ++ t).data = s.data ++ t.data := by
  cases s; cases t; rfl

/-- Every character matches itself under the regex character matcher. -/
theorem reCharMatch_refl (c : Char) : reCharMatch c c = true := by
  unfold reCharMatch
  by_cases h : c = '.'
  · subst h; decide
  · simp [h]

/-- A list zipped with itself passes the pointwise regex character match. -/
theorem all_zip_self_reCharMatch (l : List Char) :
    ((l.zip l).all fun pc => reCharMatch pc.1 pc.2) = true := by
  induction l with
  | nil => rfl
  | cons x xs ih => simp [List.all_cons, reCharMatch_refl, ih]

/-- The character data of the URL base concatenated with an id. -/
theorem base_append_data (id : String) :
    (monitorURLBase ++ id).toList = monitorURLPattern ++ id.data := by
  show (monitorURLBase ++ id).data = monitorURLBase.data ++ id.data
  exact string_data_append monitorURLBase id

/-- On a Location header that is literally the URL base followed by a
nonempty newline-free id, the `monitorURL` regular expression matches and
captures exactly that id. -/
theorem monitorURLMatch_literal (id : String) (hne : id.data ≠ [])
    (hnl : ∀ c ∈ id.data, c ≠ '\n') :
    monitorURLMatch (monitorURLBase ++ id) = some id := by
  simp only [monitorURLMatch, base_append_data, List.take_left, List.drop_left]
  have hrest : (id.data == []) = false := by
    cases h : id.data with
    | nil => exact absurd h hne
    | cons a l => rfl
  have hall : id.data.all (fun c => c != '\n') = true := by
    simp only [List.all_eq_true, bne_iff_ne, ne_eq]
    exact hnl
  simp [all_zip_self_reCharMatch, hrest, hall]

/-- takeWhile stops exactly at the first failing element appended after a
run of passing elements. -/
theorem takeWhile_append_stop (p : Char → Bool) (xs : List Char) (z : Char)
    (zs : List Char) (hxs : ∀ c ∈ xs, p c = true) (hz : p z = false) :
    ((xs ++ z :: zs).takeWhile p) = xs := by
  induction xs with
  | nil => simp [List.takeWhile_cons, hz]
  | cons x l ih =>
    have hx : p x = true := hxs x (by simp)
    simp [List.takeWhile_cons, hx]
    exact ih (fun c hc => hxs c (by simp [hc]))

/-- On a URL that is literally the URL base followed by a slash-free id, the
final path segment is exactly that id. -/
theorem lastPathSegment_literal (id : String) (hsl : ∀ c ∈ id.data, c ≠ '/') :
    lastPathSegment (monitorURLBase ++ id) = id := by
  unfold lastPathSegment
  rw [base_append_data, List.reverse_append]
  have hpat : monitorURLPattern.reverse = '/' :: monitorURLPattern.reverse.tail := rfl
  have hall : ∀ c ∈ id.data.reverse, (fun c => c != '/') c = true := by
    intro c hc
    have hc2 : c ∈ id.data := List.mem_reverse.mp hc
    simpa [bne_iff_ne] using hsl c hc2
  have hz : (fun c => c != '/') '/' = false := rfl
  rw [hpat, takeWhile_append_stop _ _ _ _ hall hz, List.reverse_reverse]

/-! Claim theorems. -/

/-- C1: the claim says NRSMonitorExists returns (false, nil) when GetMonitor
answers a 404.  The code instead returns (false, non-nil error): GetMonitor
(part_000 lines 207-209) answers a 404 with a freshly allocated
errors.New value, never the package sentinel, so the comparison
`err == synthetics.ErrMonitorNotFound` in NRSMonitorExists can never hold
and the not-found branch is dead.  At the concrete failing input — id
"abc123", a transport whose response is a 404 — exists returns false
together with the wrapped fresh error. -/
theorem C1_exists_not_found_returns_error :
    NRSMonitorExists rdExists clientNotFound =
      (false, some (.wrapped "error: could not get monitor"
        (.fresh "error: could not find monitor"))) ∧
    (clientNotFound.HTTPClient (getRequest clientNotFound "GET"
      (monitorsEndpoint ++ "/" ++ rdExists.id))).statusCode = 404 :=
  ⟨rfl, rfl⟩

/-- C9: the claim says GetAllMonitors adds the offset/limit query parameters
exactly when non-zero and completes request construction without failure for
all argument values.  The code instead panics for any non-zero offset or
limit: `request.Form` of a request fresh from http.NewRequest is the nil
map, and `url.Values.Add` assigns into it — a Go runtime panic.  With both
arguments zero the construction completes (and adds nothing). -/
theorem C9_getallmonitors_nonzero_offset_panics :
    GetAllMonitorsRequest clientList { Offset := 1, Limit := 0 } =
      .error "panic: assignment to entry in nil map" ∧
    GetAllMonitorsRequest clientList { Offset := 0, Limit := 1 } =
      .error "panic: assignment to entry in nil map" ∧
    GetAllMonitorsRequest clientList { Offset := 0, Limit := 0 } =
      .ok (getRequest clientList "GET" monitorsEndpoint) :=
  ⟨rfl, rfl, rfl⟩

/-- C4, counterexample: the claim says every explicitly changed optional
field is included in the UpdateMonitorArgs even when its value is the empty
string; but a `validation_string` changed to "" is dropped by the
`validationString != ""` guard of NRSMonitorUpdate (provider.go lines
233-238), so the built args omit it. -/
theorem C4_counterexample :
    (buildUpdateMonitorArgs rdUpdateEmptyValidation).ValidationString = none ∧
    rdUpdateEmptyValidation.changed_validation_string = true ∧
    rdUpdateEmptyValidation.validation_string = some "" :=
  ⟨rfl, rfl, rfl⟩

/-- C4, amended: in the UpdateMonitorArgs built by NRSMonitorUpdate, each of
verifySSL, bypassHeadRequest, treatRedirectAsFailure is included with the
current value exactly when the field was changed — even when that value is
false — while validationString is included exactly when it was changed AND
its current value is non-empty (a changed-but-empty validation string is
omitted). -/
theorem C4_amended_update_optional_fields (resourceData : ResourceData) :
    ((buildUpdateMonitorArgs resourceData).VerifySSL =
      if resourceData.changed_verify_ssl then
        some (getBoolField resourceData.verify_ssl) else none) ∧
    ((buildUpdateMonitorArgs resourceData).BypassHEADRequest =
      if resourceData.changed_bypass_head_request then
        some (getBoolField resourceData.bypass_head_request) else none) ∧
    ((buildUpdateMonitorArgs resourceData).TreatRedirectAsFailure =
      if resourceData.changed_treat_redirect_as_failure then
        some (getBoolField resourceData.treat_redirect_as_failure) else none) ∧
    ((buildUpdateMonitorArgs resourceData).ValidationString =
      if resourceData.changed_validation_string ∧
          getStringField resourceData.validation_string ≠ "" then
        some (getStringField resourceData.validation_string) else none) := by
  cases h1 : resourceData.changed_validation_string <;>
    cases h2 : resourceData.changed_verify_ssl <;>
      cases h3 : resourceData.changed_bypass_head_request <;>
        cases h4 : resourceData.changed_treat_redirect_as_failure <;>
          by_cases h5 : getStringField resourceData.validation_string = "" <;>
            simp [buildUpdateMonitorArgs, h1, h2, h3, h4, h5]

/-- C5, counterexample: the claim says an optional field present in the
spec is sent even when its value is false or empty; but NRSMonitorCreate
reads the optionals through GetOk, whose ok is false for a zero value, so a
`verify_ssl` explicitly set to false and a `validation_string` explicitly
set to "" are both omitted from the built CreateMonitorArgs, conflated with
absent. -/
theorem C5_counterexample :
    (buildCreateMonitorArgs rdCreatePresentFalse).VerifySSL = none ∧
    rdCreatePresentFalse.verify_ssl = some false ∧
    (buildCreateMonitorArgs rdCreatePresentFalse).ValidationString = none ∧
    rdCreatePresentFalse.validation_string = some "" :=
  ⟨rfl, rfl, rfl, rfl⟩

/-- C5, amended: in the CreateMonitorArgs built by NRSMonitorCreate, each
optional field is included exactly when it is set to a non-zero value (a
non-empty string, a true bool): absent optionals are never sent, and a
present optional holding false or the empty string is also not sent,
because GetOk conflates zero values with absence. -/
theorem C5_amended_create_optional_fields (resourceData : ResourceData) :
    ((buildCreateMonitorArgs resourceData).ValidationString =
      if getStringField resourceData.validation_string = "" then none
      else some (getStringField resourceData.validation_string)) ∧
    ((buildCreateMonitorArgs resourceData).VerifySSL =
      if getBoolField resourceData.verify_ssl then some true else none) ∧
    ((buildCreateMonitorArgs resourceData).BypassHEADRequest =
      if getBoolField resourceData.bypass_head_request then some true else none) ∧
    ((buildCreateMonitorArgs resourceData).TreatRedirectAsFailure =
      if getBoolField resourceData.treat_redirect_as_failure then some true else none) := by
  by_cases h1 : resourceData.validation_string.getD "" = ""
  · cases h2 : resourceData.verify_ssl.getD false <;>
      cases h3 : resourceData.bypass_head_request.getD false <;>
        cases h4 : resourceData.treat_redirect_as_failure.getD false <;>
          simp [buildCreateMonitorArgs, getOkStringField, getOkBoolField,
            getStringField, getBoolField, h1, h2, h3, h4]
  · have hb : (resourceData.validation_string.getD "" == "") = false := by
      simpa using h1
    cases h2 : resourceData.verify_ssl.getD false <;>
      cases h3 : resourceData.bypass_head_request.getD false <;>
        cases h4 : resourceData.treat_redirect_as_failure.getD false <;>
          simp [buildCreateMonitorArgs, getOkStringField, getOkBoolField,
            getStringField, getBoolField, h1, hb, h2, h3, h4]

/-- Helper for C6, stated over arbitrary update args: the serialized update
payload never carries the key "type" and always carries the six required
keys. -/
theorem updatePayloadKeys_spec (args : UpdateMonitorArgs) :
    "type" ∉ updateMonitorPayloadKeys args ∧
    "name" ∈ updateMonitorPayloadKeys args ∧
    "frequency" ∈ updateMonitorPayloadKeys args ∧
    "uri" ∈ updateMonitorPayloadKeys args ∧
    "locations" ∈ updateMonitorPayloadKeys args ∧
    "status" ∈ updateMonitorPayloadKeys args ∧
    "slaThreshold" ∈ updateMonitorPayloadKeys args := by
  unfold updateMonitorPayloadKeys
  cases h1 : args.ValidationString.isSome <;>
    cases h2 : args.VerifySSL.isSome <;>
      cases h3 : args.BypassHEADRequest.isSome <;>
        cases h4 : args.TreatRedirectAsFailure.isSome <;>
          simp [h1, h2, h3, h4]

/-- C6: for every resource state, the update payload NRSMonitorUpdate sends
(the serialization of its UpdateMonitorArgs) never contains the type field,
while it always contains the six required fields name, frequency, uri,
locations, status, slaThreshold. -/
theorem C6_update_payload_never_type_always_required (resourceData : ResourceData) :
    "type" ∉ updateMonitorPayloadKeys (buildUpdateMonitorArgs resourceData) ∧
    "name" ∈ updateMonitorPayloadKeys (buildUpdateMonitorArgs resourceData) ∧
    "frequency" ∈ updateMonitorPayloadKeys (buildUpdateMonitorArgs resourceData) ∧
    "uri" ∈ updateMonitorPayloadKeys (buildUpdateMonitorArgs resourceData) ∧
    "locations" ∈ updateMonitorPayloadKeys (buildUpdateMonitorArgs resourceData) ∧
    "status" ∈ updateMonitorPayloadKeys (buildUpdateMonitorArgs resourceData) ∧
    "slaThreshold" ∈ updateMonitorPayloadKeys (buildUpdateMonitorArgs resourceData) :=
  updatePayloadKeys_spec (buildUpdateMonitorArgs resourceData)

/-- C2, counterexample: the claim says CreateMonitor fails whenever the
Location header does not match the shape
https://synthetics.newrelic.com/synthetics/api/v3/monitors/(id) and never
returns a monitor in that case.  The dots of the `monitorURL` regular
expression are unescaped, so they match any character: a 201 response whose
Location header reads `https://syntheticsXnewrelic.com/...` — not of the
literal shape — is accepted, the id is extracted, and the follow-up
GetMonitor result is returned. -/
theorem C2_counterexample :
    CreateMonitor clientOddHost createArgsHome = .ok monitorHome ∧
    locationOfSpecShape oddHostLocation = false :=
  ⟨rfl, rfl⟩

/-- C2, amended: CreateMonitor fails (and never returns a monitor) exactly
in the cases where the `monitorURL` regular expression does not match the
Location header — which includes an absent header (Header.Get yields ""),
an empty header, and every header not matched by the pattern, whose
unescaped dots accept any single non-newline character where the literal
shape has a dot. -/
theorem C2_amended_location_guard (c : Client) (m : CreateMonitorArgs)
    (h : monitorURLMatch ((c.HTTPClient (CreateMonitorRequest c m)).locationHeader) = none) :
    ∃ e, CreateMonitor c m = .error e := by
  simp only [CreateMonitor]
  split
  · exact ⟨_, rfl⟩
  · rw [h]
    exact ⟨_, rfl⟩

/-- C2, amended witness: at the concrete 201 response carrying no Location
header the regular expression does not match and CreateMonitor errors. -/
theorem C2_amended_witness :
    monitorURLMatch ((clientNoLocation.HTTPClient
      (CreateMonitorRequest clientNoLocation createArgsHome)).locationHeader) = none ∧
    ∃ e, CreateMonitor clientNoLocation createArgsHome = .error e :=
  ⟨rfl, C2_amended_location_guard clientNoLocation createArgsHome rfl⟩

/-- C3: for every successful create — a 201 response whose Location header
is the monitors URL base followed by a well-formed id (nonempty, no slash,
no newline) — the id the `monitorURL` capture extracts is exactly the final
path segment of the Location URL, and CreateMonitor returns whatever the
follow-up GetMonitor on that id returns; the creation response body is
never consulted (the conclusion depends on the create response only through
its status code and Location header). -/
theorem C3_create_returns_follow_up_get (c : Client) (m : CreateMonitorArgs)
    (id : String) (hne : id.data ≠ [])
    (hnl : ∀ c2 ∈ id.data, c2 ≠ '\n') (hsl : ∀ c2 ∈ id.data, c2 ≠ '/')
    (hstatus : (c.HTTPClient (CreateMonitorRequest c m)).statusCode = 201)
    (hloc : (c.HTTPClient (CreateMonitorRequest c m)).locationHeader = monitorURLBase ++ id) :
    monitorURLMatch ((c.HTTPClient (CreateMonitorRequest c m)).locationHeader) =
      some (lastPathSegment ((c.HTTPClient (CreateMonitorRequest c m)).locationHeader)) ∧
    ∀ monitor, GetMonitor c id = .ok monitor → CreateMonitor c m = .ok monitor := by
  have hcap : monitorURLMatch ((c.HTTPClient (CreateMonitorRequest c m)).locationHeader) =
      some id := by
    rw [hloc]
    exact monitorURLMatch_literal id hne hnl
  constructor
  · rw [hcap, hloc, lastPathSegment_literal id hsl]
  · intro monitor hget
    simp only [CreateMonitor]
    simp [hstatus, hcap, hget]

/-- C3, witness: the scenario create against a transport answering 201 with
Location base ++ "abc123" and serving the scenario monitor on the follow-up
get. -/
theorem C3_witness :
    monitorURLMatch ((clientGoodLocation.HTTPClient
        (CreateMonitorRequest clientGoodLocation createArgsHome)).locationHeader) =
      some (lastPathSegment ((clientGoodLocation.HTTPClient
        (CreateMonitorRequest clientGoodLocation createArgsHome)).locationHeader)) ∧
    CreateMonitor clientGoodLocation createArgsHome = .ok monitorHome := by
  have h := C3_create_returns_follow_up_get clientGoodLocation createArgsHome "abc123"
    (by decide) (by decide) (by decide) rfl rfl
  exact ⟨h.1, h.2 monitorHome rfl⟩

/-- C7: on a read whose script fetch reports the distinguished
script-not-found outcome, NRSMonitorRead succeeds and clears both the
stored script fingerprint and the stored script locations; on any other
script-fetch error the read fails. -/
theorem C7_read_script_not_found_clears (resourceData : ResourceData)
    (client : Client) (monitor : Monitor)
    (hm : GetMonitor client resourceData.id = .ok monitor) :
    (GetMonitorScript client resourceData.id = .error .ErrMonitorScriptNotFound →
      ∃ rd, NRSMonitorRead resourceData client = .ok rd ∧
        rd.script = none ∧ rd.script_locations = none) ∧
    (∀ e, GetMonitorScript client resourceData.id = .error e →
      e ≠ GoError.ErrMonitorScriptNotFound →
      ∃ e2, NRSMonitorRead resourceData client = .error e2) := by
  constructor
  · intro hs
    simp only [NRSMonitorRead, hm, hs]
    exact ⟨_, rfl, rfl, rfl⟩
  · intro e hs hne
    cases e with
    | ErrMonitorScriptNotFound => exact absurd rfl hne
    | ErrMonitorNotFound =>
      simp only [NRSMonitorRead, hm, hs]
      exact ⟨_, rfl⟩
    | fresh msg =>
      simp only [NRSMonitorRead, hm, hs]
      exact ⟨_, rfl⟩
    | wrapped msg cause =>
      simp only [NRSMonitorRead, hm, hs]
      exact ⟨_, rfl⟩

/-- C7, witness: reading monitor "mid" against a transport whose script
endpoint answers 404 clears the stored script and script locations. -/
theorem C7_witness :
    ∃ rd, NRSMonitorRead rdReadWithScript scriptNotFoundClient = .ok rd ∧
      rd.script = none ∧ rd.script_locations = none :=
  (C7_read_script_not_found_clears rdReadWithScript scriptNotFoundClient
    monitorRead rfl).1 rfl

/-- C8: on a read whose script fetch succeeds with content `script`, the
script state NRSMonitorRead stores is exactly the 32-byte digest
sha256StateFunc(script) — so for every script whose length differs from the
digest length 32 the stored state is not the literal script text. -/
theorem C8_read_stores_fingerprint (resourceData : ResourceData)
    (client : Client) (monitor : Monitor) (script : List Nat)
    (hm : GetMonitor client resourceData.id = .ok monitor)
    (hs : GetMonitorScript client resourceData.id = .ok script) :
    ∃ rd, NRSMonitorRead resourceData client = .ok rd ∧
      rd.script = some (sha256StateFunc script) ∧
      (sha256StateFunc script).length = 32 ∧
      (script.length ≠ 32 → rd.script ≠ some script) := by
  simp only [NRSMonitorRead, hm, hs]
  refine ⟨_, rfl, rfl, sha256_digest_length script, fun hlen hcontra => hlen ?_⟩
  rw [← Option.some.inj hcontra]
  exact sha256_digest_length script

/-- C8, witness: reading monitor "mid" against a transport whose script
endpoint serves the scenario script "console.log(1)" stores its digest, a
32-byte value distinct from the 14-byte script text. -/
theorem C8_witness :
    ∃ rd, NRSMonitorRead rdReadPlain scriptOkClient = .ok rd ∧
      rd.script = some (sha256StateFunc scriptBodyConsole) ∧
      (sha256StateFunc scriptBodyConsole).length = 32 ∧
      (scriptBodyConsole.length ≠ 32 → rd.script ≠ some scriptBodyConsole) :=
  C8_read_stores_fingerprint rdReadPlain scriptOkClient monitorRead
    scriptBodyConsole rfl rfl

/-- C10: on a read whose script fetch succeeds, NRSMonitorRead leaves the
stored script_locations unchanged — script locations are only ever cleared,
in the script-not-found branch, and never refreshed from the remote side. -/
theorem C10_read_preserves_script_locations (resourceData : ResourceData)
    (client : Client) (monitor : Monitor) (script : List Nat)
    (hm : GetMonitor client resourceData.id = .ok monitor)
    (hs : GetMonitorScript client resourceData.id = .ok script) :
    ∃ rd, NRSMonitorRead resourceData client = .ok rd ∧
      rd.script_locations = resourceData.script_locations := by
  simp only [NRSMonitorRead, hm, hs]
  exact ⟨_, rfl, rfl⟩

/-- C10, witness: a read with existing stored script locations against a
transport whose script endpoint succeeds keeps those locations verbatim. -/
theorem C10_witness :
    ∃ rd, NRSMonitorRead rdReadLocations scriptOkClient2 = .ok rd ∧
      rd.script_locations = rdReadLocations.script_locations :=
  C10_read_preserves_script_locations rdReadLocations scriptOkClient2
    monitorRead [7, 7] rfl rfl
